import Mathlib

/-!
Shallow embedding of `src/src/main/dcmem.py` (Salesforce Data Cloud based
memory vector store adapter for Mem0), together with theorems settling the
spec claims about it.

Modelling conventions:
* Python dicts used as insert payloads map string keys to string values and
  are embedded as association lists (`Dict`); `payload['data']` is
  `Dict.lookup`, which yields `none` (Python: raises `KeyError`) when the
  key is absent.
* Optional parameters (`payloads`, `ids`, `filters`, ...) are `Option`s;
  Python `None` is `none`.
* Exceptions are embedded as `Except PyErr`: `zip(payloads, None)` raises
  `TypeError`, a missing `'data'` key raises `KeyError`.
* Every method returns the post-state of the object (`DataCloudMemoryStore`)
  next to its effects; since no method of the source assigns to `self`, each
  body returns the receiver unchanged.
* Outbound HTTP traffic is reified: each call returns the list of
  `NetRequest`s it hands to the two collaborator clients
  (`ingestion_client.ingest_data` / `query_svc_client.read_data`).
  The collaborator's query response is an explicit input of `search`.
* `datetime.now().strftime("%Y-%m%-d %H:%M:%S")` is abstracted as the
  explicit input `now : String` (the already-formatted wall-clock reading).
* The stray trailing comma in `__init__` (`self.dlo = dlo,`) makes
  `self.dlo` a one-element tuple; the value universe `PyVal` distinguishes
  a string from a tuple of strings so this is embedded faithfully.
* Python `is` on the literal `'null'` (line 115) is object identity against
  the interned literal, not equality; a response payload therefore carries,
  next to its string value, the identity bit `sameObjAsNullLit` saying
  whether it is that very interned object. A string freshly built from an
  HTTP response is never that object.
-/

namespace DCMem

/-- A Python value as far as this adapter produces them: a string, or a
tuple of strings (the only tuple the source builds is `(dlo,)`). -/
inductive PyVal where
  | str (s : String) : PyVal
  | tuple (elems : List String) : PyVal
deriving DecidableEq

/-- A Python dict with string keys and string values, as an association
list. `d.lookup k` is `d[k]`, with `none` for a raised `KeyError`. -/
abbrev Dict := List (String × String)

/-- A Python exception as the adapter can raise it. -/
inductive PyErr where
  | typeError : PyErr
  | keyError : PyErr
deriving DecidableEq

/-- One record of an ingestion batch, as built in `insert`:
`{"id": ..., "memory": ..., "createdAt": ...}`. -/
structure IngestRecord where
  id : String
  memory : String
  createdAt : String
deriving DecidableEq

/-- One call to `ingestion_client.ingest_data(request_object, connector_name,
dlo)`; `request_data` is the `"data"` list of the request object. -/
structure IngestRequest where
  request_data : List IngestRecord
  connector_name : String
  target : PyVal
deriving DecidableEq

/-- One call to `query_svc_client.read_data(request_obj)`. -/
structure ReadRequest where
  sql : String
deriving DecidableEq

/-- An outbound request to either collaborator client. -/
inductive NetRequest where
  | ingest (r : IngestRequest) : NetRequest
  | read (r : ReadRequest) : NetRequest
deriving DecidableEq

/-- A Python string object: its value together with the identity bit
`sameObjAsNullLit`, true iff the object is the interned literal `'null'`
appearing in the source of `search` (so `x is not 'null'` is
`!x.sameObjAsNullLit`). -/
structure PyStrObj where
  val : String
  sameObjAsNullLit : Bool
deriving DecidableEq

/-- One row of the query-service response, exposing `id`, `score` and
`payload` (the retrieved chunk text). Scores are embedded as rationals;
no claim computes with them. -/
structure Row where
  id : Option String
  score : Option Rat
  payload : PyStrObj
deriving DecidableEq

/-- The pydantic `OutputData` model of the source. -/
structure OutputData where
  id : Option String
  score : Option Rat
  payload : Option Dict
deriving DecidableEq

/-- The state of a `DataCloudMemoryStore`: exactly the four configuration
attributes `__init__` assigns (the two collaborator clients are stateless
handles and carry no data of their own). -/
structure DataCloudMemoryStore where
  connector_name : String
  dlo : PyVal
  vector_index_dlm : String
  chunk_dlm : String
deriving DecidableEq

namespace DataCloudMemoryStore

/-- `__init__`: stores the four names verbatim — except that the source line
`self.dlo = dlo,` ends in a comma, so `self.dlo` is the one-tuple `(dlo,)`.
`collection_name` is accepted and never used. Defaults of the source:
`"mem0"`, `"AgentMemory"`, `"AgentMemory_index_dlm"`,
`"AgentMemory_chunk_dlm"`. -/
def init (connector_name dlo vector_index_dlm chunk_dlm : String)
    (collection_name : Option String) : DataCloudMemoryStore :=
  { connector_name := connector_name
    dlo := PyVal.tuple [dlo]
    vector_index_dlm := vector_index_dlm
    chunk_dlm := chunk_dlm }

/-- A store built with every parameter at its source default. -/
def defaultStore : DataCloudMemoryStore :=
  init "mem0" "AgentMemory" "AgentMemory_index_dlm" "AgentMemory_chunk_dlm" none

/-- The warning `insert` logs on an empty or absent payload list. -/
def emptyPayloadWarning : String := "Empty payload, nothing will be inserted"

/-- What `insert` produces when it returns normally: the outbound requests
issued, the warnings logged, and the returned list of ids. -/
structure InsertResult where
  requests : List NetRequest
  logs : List String
  ret : List String
deriving DecidableEq

/-- The list comprehension
`[{'text': data_obj['data'], 'id': id_val} for data_obj, id_val in zip(payloads, ids)]`
of `insert`, as (text, id) pairs: `zip` truncates to the shorter list, and a
payload without a `'data'` key raises `KeyError` at its position. -/
def combineItems : List Dict → List String → Except PyErr (List (String × String))
  | [], _ => .ok []
  | _ :: _, [] => .ok []
  | p :: ps, i :: is =>
    match p.lookup "data" with
    | none => .error .keyError
    | some t =>
      match combineItems ps is with
      | .error e => .error e
      | .ok rest => .ok ((t, i) :: rest)

/-- The body of `insert`: empty/absent payloads short-circuit with a warning;
otherwise `zip(payloads, ids)` (a `TypeError` when `ids` is `None`), the
per-item record build, and a single `ingest_data` call, returning `ids`. -/
def insertOutcome (s : DataCloudMemoryStore)
    (payloads : Option (List Dict)) (ids : Option (List String))
    (now : String) : Except PyErr InsertResult :=
  match payloads with
  | none => .ok ⟨[], [emptyPayloadWarning], []⟩
  | some ps =>
    if ps.isEmpty then .ok ⟨[], [emptyPayloadWarning], []⟩
    else
      match ids with
      | none => .error .typeError
      | some is =>
        match combineItems ps is with
        | .error e => .error e
        | .ok items =>
          .ok ⟨[.ingest ⟨items.map (fun it => ⟨it.2, it.1, now⟩),
                 s.connector_name, s.dlo⟩], [], is⟩

/-- `insert(vectors, payloads, ids)`. The `vectors` argument is accepted and
never read. `now` abstracts the wall clock read by `datetime.now()`. -/
def insert (s : DataCloudMemoryStore) (vectors : List (List Rat))
    (payloads : Option (List Dict)) (ids : Option (List String))
    (now : String) : DataCloudMemoryStore × Except PyErr InsertResult :=
  (s, insertOutcome s payloads ids now)

/-- The literal text of the `search` f-string before `{self.vector_index_dlm}`. -/
def sqlA : String :=
  "\n        SELECT\n            index.RecordId__c,\n            index.score__c,\n            chunk.Chunk__c\n        FROM\n            vector_search(TABLE("

/-- The literal text of the f-string between `{self.vector_index_dlm}` and `{query}`. -/
def sqlB : String := "), \x27"

/-- The literal text of the f-string between `{query}` and `{limit}`. -/
def sqlC : String := "\x27, \x27\x27, "

/-- The literal text of the f-string between `{limit}` and `{self.chunk_dlm}`. -/
def sqlD : String := ") AS index\n        JOIN\n            "

/-- The literal text of the f-string after `{self.chunk_dlm}`. -/
def sqlE : String :=
  " AS chunk\n        ON\n            index.RecordId__c = chunk.RecordId__c        \n        "

/-- The `sql` f-string of `search`: the four interpolated values are spliced
verbatim between the literal segments, the integer `limit` via `str`. -/
def searchSql (s : DataCloudMemoryStore) (query : String) (limit : Int) : String :=
  sqlA ++ s.vector_index_dlm ++ sqlB ++ query ++ sqlC ++ toString limit ++
    sqlD ++ s.chunk_dlm ++ sqlE

/-- The output loop of `search`: a row is appended unless
`item.payload is not 'null'` fails, i.e. unless the payload object is the
interned `'null'` literal itself; an appended row becomes
`OutputData(id=item.id, score=item.score, payload={'data': item.payload})`. -/
def searchOutput (response : List Row) : List OutputData :=
  response.filterMap (fun item =>
    if item.payload.sameObjAsNullLit then none
    else some ⟨item.id, item.score, some [("data", item.payload.val)]⟩)

/-- `search(query, vectors, limit, filters)`: builds the sql text, issues one
`read_data` request and maps the collaborator's `response` rows to
`OutputData`. `vectors` and `filters` are accepted and never read. -/
def search (s : DataCloudMemoryStore) (query : String)
    (vectors : List (List Rat)) (limit : Int) (filters : Option Dict)
    (response : List Row) :
    DataCloudMemoryStore × List NetRequest × List OutputData :=
  (s, [.read ⟨searchSql s query limit⟩], searchOutput response)

/-- `list_cols()`: returns `[self.dlo]` without touching the network. -/
def list_cols (s : DataCloudMemoryStore) :
    DataCloudMemoryStore × List NetRequest × List PyVal :=
  (s, [], [s.dlo])

/-- `create_col(name, vector_size, distance)`: `pass`, returning `None`. -/
def create_col (s : DataCloudMemoryStore) (name : String) (vector_size : Int)
    (distance : String) : DataCloudMemoryStore × List NetRequest × Option Bool :=
  (s, [], none)

/-- `delete(vector_id)`: `pass`, returning `None`. -/
def delete (s : DataCloudMemoryStore) (vector_id : String) :
    DataCloudMemoryStore × List NetRequest × Option Bool :=
  (s, [], none)

/-- `delete_col()`: `pass`, returning `None`. -/
def delete_col (s : DataCloudMemoryStore) :
    DataCloudMemoryStore × List NetRequest × Option Bool :=
  (s, [], none)

/-- `col_info()`: `pass`, returning `None`. -/
def col_info (s : DataCloudMemoryStore) :
    DataCloudMemoryStore × List NetRequest × Option Dict :=
  (s, [], none)

/-- `get(vector_id)`: `pass`, returning `None`. -/
def get (s : DataCloudMemoryStore) (vector_id : String) :
    DataCloudMemoryStore × List NetRequest × Option Bool :=
  (s, [], none)

/-- `list(filters, limit)`: `pass`, returning `None`. -/
def list (s : DataCloudMemoryStore) (filters : Option Dict) (limit : Option Int) :
    DataCloudMemoryStore × List NetRequest × Option Bool :=
  (s, [], none)

/-- `reset()`: `pass`, returning `None`. -/
def reset (s : DataCloudMemoryStore) :
    DataCloudMemoryStore × List NetRequest × Option Bool :=
  (s, [], none)

/-- `update(vector_id, vector, payload)`: `pass`, returning `None`. -/
def update (s : DataCloudMemoryStore) (vector_id : String)
    (vector : Option (List Dict)) (payload : Option Dict) :
    DataCloudMemoryStore × List NetRequest × Option Bool :=
  (s, [], none)

end DataCloudMemoryStore

/-- The skip rule the spec states for `search` ("rows whose payload indicates
no match — an empty/null payload — are skipped"), written from the spec's
words for comparison with the source's identity check: a row survives iff its
payload text is neither empty nor the string `"null"`. -/
def specNonEmptyRows (response : List Row) : List Row :=
  response.filter (fun r => !(r.payload.val == "") && !(r.payload.val == "null"))

/-- `sub` occurs verbatim inside `hay`. -/
def strContains (hay sub : String) : Prop := ∃ a b, hay = a ++ sub ++ b

open DataCloudMemoryStore

/-- When every payload that gets zipped owns a `'data'` key, the list
comprehension succeeds and pairs the looked-up texts with the ids
positionally. -/
theorem combineItems_ok (ps : List Dict) (ids : List String)
    (h : ∀ pi ∈ ps.zip ids, ((pi : Dict × String).1.lookup "data").isSome) :
    combineItems ps ids =
      .ok ((ps.zip ids).map (fun pi => ((pi.1.lookup "data").getD "", pi.2))) := by
  induction ps generalizing ids with
  | nil => cases ids <;> rfl
  | cons p ps ih =>
    cases ids with
    | nil => rfl
    | cons i is =>
      have hp : ((p : Dict).lookup "data").isSome := h (p, i) (by simp)
      obtain ⟨t, ht⟩ := Option.isSome_iff_exists.mp hp
      have hrest := ih is (fun pi hpi => h pi (by simp [hpi]))
      simp only [combineItems, List.zip_cons_cons, List.map_cons, hrest, ht]
      simp [ht]

/-- C1: for every non-empty payloads list and equal-length ids list (each
payload carrying a `'data'` key, as the claim's `payloads[i]['data']`
presupposes), `insert` issues exactly one write request to the configured
connector and stored target object, whose batch pairs payloads and ids
positionally — record `i` has id `ids[i]`, text `payloads[i]['data']` and
the creation timestamp — and returns the input ids list unchanged. -/
theorem insert_one_request_positional (s : DataCloudMemoryStore)
    (vectors : List (List Rat)) (ps : List Dict) (ids : List String) (now : String)
    (hne : ps ≠ []) (hlen : ids.length = ps.length)
    (hdata : ∀ p ∈ ps, ((p : Dict).lookup "data").isSome) :
    s.insert vectors (some ps) (some ids) now =
      (s, .ok ⟨[.ingest ⟨(ps.zip ids).map
          (fun pi => ⟨pi.2, (pi.1.lookup "data").getD "", now⟩),
        s.connector_name, s.dlo⟩], [], ids⟩) ∧
    ((ps.zip ids).map (fun pi =>
        (⟨pi.2, (pi.1.lookup "data").getD "", now⟩ : IngestRecord))).length = ps.length ∧
    ∀ i, i < ps.length →
      ((ps.zip ids).map (fun pi =>
          (⟨pi.2, (pi.1.lookup "data").getD "", now⟩ : IngestRecord)))[i]? =
        some ⟨(ids[i]?).getD "", (((ps[i]?).getD []).lookup "data").getD "", now⟩ := by
  have hzip : ∀ pi ∈ ps.zip ids, ((pi : Dict × String).1.lookup "data").isSome := by
    rintro ⟨p, i⟩ hpi
    exact hdata p (List.of_mem_zip hpi).1
  have hci := combineItems_ok ps ids hzip
  have hzlen : (ps.zip ids).length = ps.length := by
    simp [List.length_zip, hlen]
  refine ⟨?_, ?_, ?_⟩
  · have hfalse : ps.isEmpty = false := List.isEmpty_eq_false.mpr hne
    simp only [DataCloudMemoryStore.insert, insertOutcome, hfalse, hci]
    simp [List.map_map, Function.comp_def]
  · rw [List.length_map, hzlen]
  · intro i hi
    have hiz : i < (ps.zip ids).length := by rw [hzlen]; exact hi
    have hii : i < ids.length := by rw [hlen]; exact hi
    rw [List.getElem?_map, List.getElem?_eq_getElem hiz, List.getElem_zip,
      Option.map_some', List.getElem?_eq_getElem hi, List.getElem?_eq_getElem hii]
    simp

/-- Witness for C1 at payloads `[{'data': 'a'}, {'data': 'b'}]`,
ids `["1", "2"]`: one write request carrying the two paired records,
returning `["1", "2"]`. -/
theorem insert_one_request_positional_witness :
    defaultStore.insert [] (some [[("data", "a")], [("data", "b")]])
        (some ["1", "2"]) "ts" =
      (defaultStore, .ok ⟨[.ingest ⟨[⟨"1", "a", "ts"⟩, ⟨"2", "b", "ts"⟩],
        "mem0", PyVal.tuple ["AgentMemory"]⟩], [], ["1", "2"]⟩) :=
  (insert_one_request_positional defaultStore [] [[("data", "a")], [("data", "b")]]
    ["1", "2"] "ts" (by decide) (by decide) (by decide)).1

/-- C5: with `payloads` absent (`None`) or the empty list, `insert` logs the
warning, returns `[]` and issues zero write requests, whatever `vectors`
and `ids` hold. -/
theorem insert_empty_payloads (s : DataCloudMemoryStore) (vectors : List (List Rat))
    (ids : Option (List String)) (now : String) :
    s.insert vectors none ids now = (s, .ok ⟨[], [emptyPayloadWarning], []⟩) ∧
    s.insert vectors (some []) ids now = (s, .ok ⟨[], [emptyPayloadWarning], []⟩) :=
  ⟨rfl, rfl⟩

/-- C6: when `ids` is shorter than the non-empty `payloads` (each zipped
payload carrying a `'data'` key), `insert` raises nothing: the zip silently
truncates, the single batch holds exactly `len(ids)` records, and `ids`
comes back unchanged. -/
theorem insert_truncates_to_ids (s : DataCloudMemoryStore)
    (vectors : List (List Rat)) (ps : List Dict) (ids : List String) (now : String)
    (hne : ps ≠ []) (hlt : ids.length < ps.length)
    (hdata : ∀ p ∈ ps, ((p : Dict).lookup "data").isSome) :
    ∃ batch : List IngestRecord,
      s.insert vectors (some ps) (some ids) now =
        (s, .ok ⟨[.ingest ⟨batch, s.connector_name, s.dlo⟩], [], ids⟩) ∧
      batch.length = ids.length := by
  refine ⟨(ps.zip ids).map (fun pi => ⟨pi.2, (pi.1.lookup "data").getD "", now⟩), ?_, ?_⟩
  · have hfalse : ps.isEmpty = false := List.isEmpty_eq_false.mpr hne
    have hci := combineItems_ok ps ids (by
      rintro ⟨p, i⟩ hpi
      exact hdata p (List.of_mem_zip hpi).1)
    simp only [DataCloudMemoryStore.insert, insertOutcome, hfalse, hci]
    simp [List.map_map, Function.comp_def]
  · rw [List.length_map, List.length_zip]
    exact inf_eq_right.mpr hlt.le

/-- Witness for C6 at two payloads and one id: the batch has one record and
`["1"]` is returned. -/
theorem insert_truncates_to_ids_witness :
    ∃ batch : List IngestRecord,
      defaultStore.insert [] (some [[("data", "a")], [("data", "b")]])
          (some ["1"]) "ts" =
        (defaultStore, .ok ⟨[.ingest ⟨batch, defaultStore.connector_name,
          defaultStore.dlo⟩], [], ["1"]⟩) ∧
      batch.length = ["1"].length :=
  insert_truncates_to_ids defaultStore [] [[("data", "a")], [("data", "b")]] ["1"] "ts"
    (by decide) (by decide) (by decide)

/-- C10: with non-empty payloads and `ids` absent (`None`), `insert` raises
(`zip(payloads, None)` is a `TypeError`) instead of returning a result, and
issues no request. -/
theorem insert_none_ids_raises (s : DataCloudMemoryStore)
    (vectors : List (List Rat)) (ps : List Dict) (now : String) (hne : ps ≠ []) :
    s.insert vectors (some ps) none now = (s, Except.error PyErr.typeError) := by
  have hfalse : ps.isEmpty = false := List.isEmpty_eq_false.mpr hne
  simp [DataCloudMemoryStore.insert, insertOutcome, hfalse]

/-- Witness for C10 at a single payload. -/
theorem insert_none_ids_raises_witness :
    defaultStore.insert [] (some [[("data", "a")]]) none "ts" =
      (defaultStore, Except.error PyErr.typeError) :=
  insert_none_ids_raises defaultStore [] [[("data", "a")]] "ts" (by decide)

/-- C2: the claim fails on the code. The filter `item.payload is not 'null'`
tests object identity against the interned literal, which a payload string
freshly built from an HTTP response never is: a response row whose payload
text is `"null"` (no match) is kept by the code, while the spec's skip rule
(`specNonEmptyRows`) discards it. -/
theorem search_keeps_null_payload_row :
    (defaultStore.search "q" [] 1 none
        [⟨some "r1", none, ⟨"null", false⟩⟩]).2.2 =
      [⟨some "r1", none, some [("data", "null")]⟩] ∧
    specNonEmptyRows [⟨some "r1", none, ⟨"null", false⟩⟩] = [] :=
  ⟨rfl, rfl⟩

/-- C3: the claim fails on the code. The trailing comma in `__init__`
(`self.dlo = dlo,`) stores the one-tuple `(dlo,)`, so `list_cols` on a
default-constructed store returns a one-element list whose element is the
tuple `("AgentMemory",)`, not the configured object-name string. -/
theorem list_cols_returns_tuple_not_string :
    (defaultStore.list_cols).2.2 = [PyVal.tuple ["AgentMemory"]] ∧
    (defaultStore.list_cols).2.2 ≠ [PyVal.str "AgentMemory"] :=
  ⟨rfl, by decide⟩

/-- C4: for every query, limit, vectors, filters and collaborator response,
`search` issues exactly one read request, and its sql text contains the
query string spliced verbatim (unescaped), the configured vector-index
structure name, the configured chunk structure name, and the rendered
limit. -/
theorem search_one_request_sql (s : DataCloudMemoryStore) (q : String)
    (vectors : List (List Rat)) (lim : Int) (filters : Option Dict)
    (response : List Row) :
    (s.search q vectors lim filters response).2.1 = [.read ⟨searchSql s q lim⟩] ∧
    strContains (searchSql s q lim) q ∧
    strContains (searchSql s q lim) s.vector_index_dlm ∧
    strContains (searchSql s q lim) s.chunk_dlm ∧
    strContains (searchSql s q lim) (toString lim) := by
  refine ⟨rfl,
    ⟨sqlA ++ s.vector_index_dlm ++ sqlB,
      sqlC ++ toString lim ++ sqlD ++ s.chunk_dlm ++ sqlE, ?_⟩,
    ⟨sqlA, sqlB ++ q ++ sqlC ++ toString lim ++ sqlD ++ s.chunk_dlm ++ sqlE, ?_⟩,
    ⟨sqlA ++ s.vector_index_dlm ++ sqlB ++ q ++ sqlC ++ toString lim ++ sqlD,
      sqlE, ?_⟩,
    ⟨sqlA ++ s.vector_index_dlm ++ sqlB ++ q ++ sqlC,
      sqlD ++ s.chunk_dlm ++ sqlE, ?_⟩⟩ <;>
  simp only [searchSql, String.append_assoc]

/-- C7: each of the seven no-op methods (plus `col_info`, the collection-info
operation) issues zero outbound requests, raises nothing (it is a total
function), leaves the store untouched and returns Python `None`. -/
theorem noop_methods (s : DataCloudMemoryStore) (vid vid2 vid3 : String)
    (name dist : String) (vsize : Int) (fs : Option Dict) (lim : Option Int)
    (vec : Option (List Dict)) (pl : Option Dict) :
    s.delete vid = (s, [], none) ∧
    s.delete_col = (s, [], none) ∧
    s.get vid2 = (s, [], none) ∧
    s.list fs lim = (s, [], none) ∧
    s.reset = (s, [], none) ∧
    s.update vid3 vec pl = (s, [], none) ∧
    s.create_col name vsize dist = (s, [], none) ∧
    s.col_info = (s, [], none) :=
  ⟨rfl, rfl, rfl, rfl, rfl, rfl, rfl, rfl⟩

/-- C8: two-run noninterference of the dead parameters: two `insert` calls
differing only in `vectors`, and two `search` calls differing only in
`filters`, produce identical outbound requests and identical return
values (identical whole outcomes). -/
theorem vectors_filters_unused (s : DataCloudMemoryStore)
    (v1 v2 : List (List Rat)) (payloads : Option (List Dict))
    (ids : Option (List String)) (now : String) (q : String)
    (sv : List (List Rat)) (lim : Int) (f1 f2 : Option Dict)
    (response : List Row) :
    s.insert v1 payloads ids now = s.insert v2 payloads ids now ∧
    s.search q sv lim f1 response = s.search q sv lim f2 response :=
  ⟨rfl, rfl⟩

/-- C9: construction assigns the four configuration attributes (the object
name tuple-wrapped, by the source's trailing comma), and every one of the
contract operations returns its receiver with all four unchanged. -/
theorem config_set_once_never_mutated (c d v k : String) (col : Option String)
    (s : DataCloudMemoryStore) (vectors sv : List (List Rat))
    (payloads : Option (List Dict)) (ids : Option (List String)) (now q : String)
    (lim : Int) (fs fs2 : Option Dict) (response : List Row)
    (vid vid2 vid3 name dist : String) (vsize : Int) (lim2 : Option Int)
    (vec : Option (List Dict)) (pl : Option Dict) :
    (init c d v k col =
      ⟨c, PyVal.tuple [d], v, k⟩) ∧
    (s.create_col name vsize dist).1 = s ∧
    (s.insert vectors payloads ids now).1 = s ∧
    (s.search q sv lim fs response).1 = s ∧
    (s.list_cols).1 = s ∧
    (s.delete vid).1 = s ∧
    (s.delete_col).1 = s ∧
    (s.col_info).1 = s ∧
    (s.get vid2).1 = s ∧
    (s.list fs2 lim2).1 = s ∧
    (s.reset).1 = s ∧
    (s.update vid3 vec pl).1 = s :=
  ⟨rfl, rfl, rfl, rfl, rfl, rfl, rfl, rfl, rfl, rfl, rfl, rfl⟩

end DCMem
